import Mathlib

/-! Verification development for the easy-plot-beamline core
(`src/easy_plot_beamline/plotting.py`).

The Python module is embedded shallowly:

* text is `List Char` / `String`, split exactly as `re.split(r"[,\s]+", ...)`
  and `str.split()` do on the ASCII whitespace class;
* numeric values are exact rationals `ℚ` (the usual idealisation of IEEE
  doubles); tokens accepted by Python's `float()` are recognised by
  `isPyFloat`, and finite decimal/exponent tokens are evaluated exactly by
  `parseQ`.  Rational arithmetic inside the embedding goes through the
  executable wrappers `qAdd`, `qSub`, `qMul`, `qDiv`, `qAbs` (each proved
  equal to the corresponding field operation below), so that every
  definition evaluates by kernel reduction on concrete inputs;
* the `numpy` entry points used by the module (`np.loadtxt`, `np.allclose`,
  `np.interp`) are modelled by `loadtxtRows`, `allclose` and `interp1`;
  `allclose` reproduces numpy broadcasting on 1-D shapes, including the
  `ValueError` raised for incompatible lengths;
* a file is a `File` (display name plus the list of its text lines); the
  existence check at the top of `_load_data` is outside the model — every
  modelled file exists;
* exceptions raised by `_load_data` become `Except LoadError Curve`; the
  plotting methods, which catch per-file exceptions and render through
  matplotlib, become pure functions producing the list of `Series` they
  hand to the renderer: a call `plt.plot(x, y + off, label=lab)` is
  recorded as `Series.mk x y lab off` (base data plus the applied vertical
  offset); axis labelling, legend and figure management are presentation
  glue outside the model.
-/

set_option maxRecDepth 40000
set_option maxHeartbeats 1000000

/-! Section: Executable rational arithmetic

Batteries marks `Rat.add`, `Rat.sub`, `Rat.mul`, `Rat.inv` irreducible, so
the embedding computes with these `mkRat`-based equivalents and the
abstract proofs rewrite them to the field operations. -/

/-- Executable addition on `ℚ`. -/
def qAdd (a b : ℚ) : ℚ := mkRat (a.num * b.den + b.num * a.den) (a.den * b.den)

/-- Executable subtraction on `ℚ`. -/
def qSub (a b : ℚ) : ℚ := mkRat (a.num * b.den - b.num * a.den) (a.den * b.den)

/-- Executable multiplication on `ℚ`. -/
def qMul (a b : ℚ) : ℚ := mkRat (a.num * b.num) (a.den * b.den)

/-- Executable division on `ℚ` (division by zero yields zero, as for `/`). -/
def qDiv (a b : ℚ) : ℚ := Rat.divInt (a.num * b.den) (a.den * b.num)

/-- Executable absolute value on `ℚ`. -/
def qAbs (a : ℚ) : ℚ := mkRat (Int.ofNat a.num.natAbs) a.den

theorem qAdd_eq (a b : ℚ) : qAdd a b = a + b := by
  have ha : ((a.den : ℚ)) ≠ 0 := Nat.cast_ne_zero.mpr a.den_nz
  have hb : ((b.den : ℚ)) ≠ 0 := Nat.cast_ne_zero.mpr b.den_nz
  conv_rhs => rw [← Rat.num_div_den a, ← Rat.num_div_den b]
  rw [div_add_div _ _ ha hb, qAdd, Rat.mkRat_eq_div]
  push_cast
  ring_nf

theorem qSub_eq (a b : ℚ) : qSub a b = a - b := by
  have ha : ((a.den : ℚ)) ≠ 0 := Nat.cast_ne_zero.mpr a.den_nz
  have hb : ((b.den : ℚ)) ≠ 0 := Nat.cast_ne_zero.mpr b.den_nz
  conv_rhs => rw [← Rat.num_div_den a, ← Rat.num_div_den b]
  rw [div_sub_div _ _ ha hb, qSub, Rat.mkRat_eq_div]
  push_cast
  ring_nf

theorem qMul_eq (a b : ℚ) : qMul a b = a * b := by
  have ha : ((a.den : ℚ)) ≠ 0 := Nat.cast_ne_zero.mpr a.den_nz
  have hb : ((b.den : ℚ)) ≠ 0 := Nat.cast_ne_zero.mpr b.den_nz
  conv_rhs => rw [← Rat.num_div_den a, ← Rat.num_div_den b]
  rw [div_mul_div_comm, qMul, Rat.mkRat_eq_div]
  push_cast
  ring_nf

theorem qDiv_eq (a b : ℚ) : qDiv a b = a / b := by
  rcases eq_or_ne b 0 with hb0 | hb0
  · subst hb0
    simp [qDiv, Rat.divInt_zero]
  · have ha : ((a.den : ℚ)) ≠ 0 := Nat.cast_ne_zero.mpr a.den_nz
    have hbd : ((b.den : ℚ)) ≠ 0 := Nat.cast_ne_zero.mpr b.den_nz
    have hbn : ((b.num : ℚ)) ≠ 0 := Int.cast_ne_zero.mpr (Rat.num_ne_zero.mpr hb0)
    rw [qDiv, Rat.divInt_eq_div]
    push_cast
    rw [div_eq_div_iff (mul_ne_zero ha hbn) hb0]
    have hA : ((a.num : ℚ)) = a * (a.den : ℚ) := (div_eq_iff ha).mp (Rat.num_div_den a)
    have hB : ((b.num : ℚ)) = b * (b.den : ℚ) := (div_eq_iff hbd).mp (Rat.num_div_den b)
    rw [hA, hB]
    ring

theorem qAbs_eq (a : ℚ) : qAbs a = |a| := by
  rw [Rat.abs_def, Rat.divInt_ofNat, qAbs]
  rfl

/-! Section: Text utilities (Python string and regex behaviour) -/

/-- ASCII whitespace, as matched by Python's `str.strip`/`str.split` and by
the regex class `\s` on the inputs in scope. -/
def pyIsSpace (c : Char) : Bool :=
  c = ' ' || c = '\t' || c = '\n' || c = '\r' || c = '\x0b' || c = '\x0c'

/-- Decimal digit test (ASCII). -/
def isDigitC (c : Char) : Bool :=
  48 ≤ c.toNat && c.toNat ≤ 57

/-- Python `str.strip()`: remove leading and trailing whitespace. -/
def pyStrip (cs : List Char) : List Char :=
  ((cs.dropWhile pyIsSpace).reverse.dropWhile pyIsSpace).reverse

/-- Test for `stripped.startswith("#L")` from `_load_data`. -/
def startsHashL (cs : List Char) : Bool :=
  match cs with
  | '#' :: 'L' :: _ => true
  | _ => false

/-- Splitter on runs of separator characters, keeping empty fields at the
ends, exactly like `re.split(r"[sep]+", s)`.  `acc` holds the current field
reversed; `skipping` records that we are inside a separator run (so its
remaining characters are absorbed into the same split point). -/
def splitRunsGo (p : Char → Bool) (cs : List Char) (acc : List Char)
    (skipping : Bool) : List (List Char) :=
  match cs with
  | [] => [acc.reverse]
  | c :: rest =>
    if p c then
      if skipping then splitRunsGo p rest [] true
      else acc.reverse :: splitRunsGo p rest [] true
    else splitRunsGo p rest (c :: acc) false

/-- Split on runs of separator characters (see `splitRunsGo`). -/
def splitRuns (p : Char → Bool) (cs : List Char) : List (List Char) :=
  splitRunsGo p cs [] false

/-- The module's `re.split(r"[,\s]+", s)`: split on runs of commas and
whitespace. -/
def pySplit (cs : List Char) : List (List Char) :=
  splitRuns (fun c => c = ',' || pyIsSpace c) cs

/-- Python `str.split()` (no argument): whitespace runs, empties dropped.
This is how `np.loadtxt` tokenises a line with its default delimiter. -/
def wsTokens (cs : List Char) : List (List Char) :=
  (splitRuns pyIsSpace cs).filter (fun t => !t.isEmpty)

/-! Section: Python `float()` tokens -/

/-- Characters allowed inside one digit group of a Python float literal. -/
def isGroupChar (c : Char) : Bool :=
  isDigitC c || c = '_'

/-- Maximal digit/underscore group at the head of `cs`, and the remainder. -/
def digitGroup (cs : List Char) : List Char × List Char :=
  (cs.takeWhile isGroupChar, cs.dropWhile isGroupChar)

/-- Validity of a nonempty digit group under Python's underscore rule: the
group starts and ends with a digit and every underscore sits between two
digits.  `prevDigit` records whether the previous character was a digit. -/
def validUnderGo (g : List Char) (prevDigit : Bool) : Bool :=
  match g with
  | [] => prevDigit
  | c :: rest =>
    if isDigitC c then validUnderGo rest true
    else if c = '_' then
      if prevDigit then validUnderGo rest false else false
    else false

/-- A digit group is acceptable when empty (the caller decides whether an
empty group is allowed) or valid under the underscore rule. -/
def groupOk (g : List Char) : Bool :=
  g.isEmpty || validUnderGo g false

/-- Numeric value of a digit group, ignoring underscores. -/
def natOfDigits (g : List Char) : Nat :=
  g.foldl (fun acc c => if isDigitC c then acc * 10 + (c.toNat - 48) else acc) 0

/-- Number of digits in a digit group (underscores excluded). -/
def countDigits (g : List Char) : Nat :=
  (g.filter isDigitC).length

/-- Exact value of a finite numeric token in the syntax accepted by Python's
`float()` (optional sign, integer/fraction digits around an optional point,
optional exponent, underscores between digits).  Returns `none` for anything
`float()` rejects and for the non-finite spellings `inf`/`nan`, which have
no rational value. -/
def parseQ (cs : List Char) : Option ℚ :=
  let sgn : Bool × List Char :=
    match cs with
    | '+' :: r => (false, r)
    | '-' :: r => (true, r)
    | r => (false, r)
  let ipart := digitGroup sgn.2
  let fpart : List Char × List Char :=
    match ipart.2 with
    | '.' :: r => digitGroup r
    | r => ([], r)
  let ni := countDigits ipart.1
  let nf := countDigits fpart.1
  if ¬ (groupOk ipart.1 && groupOk fpart.1) then none
  else if ni = 0 ∧ nf = 0 then none
  else
    let mant : Nat := natOfDigits ipart.1 * 10 ^ nf + natOfDigits fpart.1
    let signed : Nat → Int := fun n => if sgn.1 then -(n : Int) else (n : Int)
    match fpart.2 with
    | [] => some (mkRat (signed mant) (10 ^ nf))
    | e :: r =>
      if e = 'e' ∨ e = 'E' then
        let esgn : Bool × List Char :=
          match r with
          | '+' :: rr => (true, rr)
          | '-' :: rr => (false, rr)
          | rr => (true, rr)
        let epart := digitGroup esgn.2
        if ¬ (validUnderGo epart.1 false && epart.2.isEmpty) then none
        else
          let ev := natOfDigits epart.1
          if esgn.1 then some (mkRat (signed (mant * 10 ^ ev)) (10 ^ nf))
          else some (mkRat (signed mant) (10 ^ nf * 10 ^ ev))
      else none

/-- The non-finite spellings accepted by `float()`: optional sign then
`inf`, `infinity` or `nan`, case-insensitively. -/
def isInfNanTok (cs : List Char) : Bool :=
  let rest :=
    match cs with
    | '+' :: r => r
    | '-' :: r => r
    | r => r
  let low := rest.map Char.toLower
  low = "inf".toList || low = "infinity".toList || low = "nan".toList

/-- Whether Python's `float(tok)` succeeds on a (whitespace-free) token. -/
def isPyFloat (cs : List Char) : Bool :=
  (parseQ cs).isSome || isInfNanTok cs

/-- The `try: [float(p) for p in parts]` probe of `_load_data`: every field
of the comma/whitespace split parses as a float. -/
def isNumericRow (stripped : List Char) : Bool :=
  (pySplit stripped).all isPyFloat

example : isNumericRow "0 1".toList = true := by decide
example : isNumericRow "1.5e-2, 3".toList = true := by decide
example : isNumericRow "".toList = false := by decide
example : isNumericRow "hello world".toList = false := by decide
example : isNumericRow "#L r G".toList = false := by decide
example : parseQ "2.5".toList = some (mkRat 5 2) := by decide
example : parseQ "-1e2".toList = some (-100) := by decide
example : parseQ "1_0".toList = some 10 := by decide
example : parseQ "1_".toList = none := by decide
example : parseQ ".".toList = none := by decide
example : isPyFloat "-inf".toList = true := by decide
example : pySplit "r, q  s".toList = ["r".toList, "q".toList, "s".toList] := by decide
example : pyStrip "  #L r G ".toList = "#L r G".toList := by decide

/-! Section: Label parsing (`_load_data` lines 44-57) -/

/-- Python `str.replace(pat, repl)`: replace every (left-to-right,
non-overlapping) occurrence.  `skip` counts pattern characters that were
already consumed by an emitted replacement. -/
def replaceAllGo (pat repl : List Char) (cs : List Char) (skip : Nat) : List Char :=
  match cs, skip with
  | [], _ => []
  | _ :: rest, n + 1 => replaceAllGo pat repl rest n
  | c :: rest, 0 =>
    if pat.isPrefixOf (c :: rest) then
      repl ++ replaceAllGo pat repl rest (pat.length - 1)
    else c :: replaceAllGo pat repl rest 0

/-- Python `str.replace` (nonempty patterns only, which is all the module
uses). -/
def replaceAll (pat repl cs : List Char) : List Char :=
  replaceAllGo pat repl cs 0

/-- The fixed substitution table of `_load_data` replacing LaTeX ångström
markup with Unicode. -/
def substTable : List (List Char × List Char) :=
  [("($\\AA$)".toList, "(Å)".toList),
   ("($\\AA^{-1}$)".toList, "(Å⁻¹)".toList),
   ("($\\AA^{-2}$)".toList, "(Å⁻²)".toList),
   ("($\\AA^{-3}$)".toList, "(Å⁻³)".toList)]

/-- Apply the substitution table to one label, in table order. -/
def cleanLabel (l : List Char) : List Char :=
  substTable.foldl (fun s p => replaceAll p.1 p.2 s) l

/-- The label-parsing step of `_load_data`: split the captured `#L` line
remainder on commas/whitespace, take the first token as xlabel (`"X"` if
there is none) and the second as ylabel (`"Y"` if there is no second), and
clean both through the substitution table. -/
def parseLabels (labelLine : List Char) : String × String :=
  let parts := pySplit labelLine
  (⟨cleanLabel (parts.getD 0 "X".toList)⟩, ⟨cleanLabel (parts.getD 1 "Y".toList)⟩)

example : parseLabels "q I".toList = ("q", "I") := by decide
example : replaceAll "($\\AA$)".toList "(Å)".toList "($\\AA$)".toList = "(Å)".toList := by
  decide

/-! Section: The structure scan of `_load_data` (lines 19-37) -/

/-- The `for i, line in enumerate(lines)` loop of `_load_data`: find the
(last seen) `#L` label line and the index of the first subsequent line all
of whose comma/whitespace fields parse as floats.  `i` is the absolute
index of the head of `ls`; `lab` is the remembered label remainder. -/
def scanGo (ls : List String) (i : Nat) (lab : Option (List Char)) :
    Option (List Char) × Option Nat :=
  match ls with
  | [] => (lab, none)
  | l :: rest =>
    if startsHashL (pyStrip l.toList) then
      scanGo rest (i + 1) (some (pyStrip ((pyStrip l.toList).drop 2)))
    else
      match lab with
      | none => scanGo rest (i + 1) none
      | some lb =>
        if isNumericRow (pyStrip l.toList) then (some lb, some i)
        else scanGo rest (i + 1) (some lb)

/-- Structure scan of a whole file: label remainder and data-start index. -/
def scan (lines : List String) : Option (List Char) × Option Nat :=
  scanGo lines 0 none

example : scan ["#L r G", "0 1", "1 2"] = (some "r G".toList, some 1) := by decide
example : scan ["0 1", "1 2"] = (none, none) := by decide
example : scan ["#L r G", "junk", "0 1"] = (some "r G".toList, some 2) := by decide

/-! Section: `np.loadtxt` (line 61) -/

/-- One line as `np.loadtxt` sees it: strip the `#`-comment part, tokenise
on whitespace; `none` when the line is blank or pure comment (numpy skips
it). -/
def loadtxtLine (l : String) : Option (List (List Char)) :=
  let toks := wsTokens (l.toList.takeWhile (fun c => c ≠ '#'))
  if toks.isEmpty then none else some toks

/-- `np.loadtxt(lines)` on a list of text lines: parse every remaining
token as a float and require rectangular rows; `none` models the
`ValueError` that `_load_data` turns into its "could not parse numeric
data" failure.  Non-finite tokens (`inf`/`nan`) are outside this model and
are treated as parse failures; no claim exercises them. -/
def loadtxtRows (lines : List String) : Option (List (List ℚ)) :=
  match (lines.filterMap loadtxtLine).mapM (fun r => r.mapM parseQ) with
  | none => none
  | some rows =>
    if rows.all (fun r => r.length = (rows.headD []).length) then some rows else none

example : loadtxtRows ["0 1", "1 2"] = some [[0, 1], [1, 2]] := by decide
example : loadtxtRows ["0 1", "1"] = none := by decide
example : loadtxtRows ["1,2"] = none := by decide

/-! Section: `_load_data` as a total function -/

/-- A loaded curve: the first two columns of the numeric block plus the
cleaned axis labels, exactly the tuple `_load_data` returns. -/
structure Curve where
  x : List ℚ
  y : List ℚ
  xlabel : String
  ylabel : String
deriving DecidableEq

/-- The exceptions `_load_data` can raise (the spec's LoadFailure reasons).
`fileNotFound` is part of the taxonomy but is not produced by the model,
which only represents existing files. -/
inductive LoadError where
  | fileNotFound
  | unparsableFormat
  | parseFailure
  | insufficientColumns
deriving DecidableEq

/-- An input file: its display name (`Path.name`) and its text lines. -/
structure File where
  name : String
  lines : List String
deriving DecidableEq

instance : Inhabited File := ⟨⟨"", []⟩⟩

/-- `_load_data`: scan for the `#L` label and the first numeric line; if
either is missing raise "could not find #L labels or numeric data"
(`unparsableFormat`); otherwise parse the labels, run `np.loadtxt` on
`lines[data_start:]` (`parseFailure` when it throws), and reject results
with `ndim == 1` (a single data row) or fewer than two columns
(`insufficientColumns`).  On success return the first two columns and the
labels. -/
def loadCurve (f : File) : Except LoadError Curve :=
  match scan f.lines with
  | (some lab, some ds) =>
    match loadtxtRows (f.lines.drop ds) with
    | none => .error .parseFailure
    | some rows =>
      if rows.length ≤ 1 ∨ (rows.headD []).length < 2 then .error .insufficientColumns
      else .ok ⟨rows.map (fun r => r.getD 0 0), rows.map (fun r => r.getD 1 0),
                (parseLabels lab).1, (parseLabels lab).2⟩
  | _ => .error .unparsableFormat

/-- Whether a file loads successfully. -/
def loadsOk (f : File) : Bool :=
  match loadCurve f with
  | .ok _ => true
  | .error _ => false

/-- Length of a loaded curve's x grid (0 for failed loads). -/
def gridLen (f : File) : Nat :=
  match loadCurve f with
  | .ok c => c.x.length
  | .error _ => 0

deriving instance DecidableEq for Except

example : loadCurve ⟨"a.gr", ["#L r G", "0 1", "1 2"]⟩ =
    .ok ⟨[0, 1], [1, 2], "r", "G"⟩ := by decide
example : loadCurve ⟨"plain.txt", ["0 1", "1 2"]⟩ = .error .unparsableFormat := by decide
example : loadCurve ⟨"one.gr", ["#L r G", "0 1"]⟩ = .error .insufficientColumns := by decide

/-! Section: `np.allclose`, `np.interp` and the inline alignment -/

/-- `np.isclose(a, b)` with the default tolerances `rtol=1e-05`,
`atol=1e-08` (idealised as exact rationals): `|a - b| <= atol + rtol*|b|`. -/
def closeQ (a b : ℚ) : Bool :=
  decide (qAbs (qSub a b) ≤ qAdd (mkRat 1 100000000) (qMul (mkRat 1 100000) (qAbs b)))

/-- `np.allclose(a, b)` for 1-D arrays, including numpy broadcasting: equal
lengths compare elementwise, a length-1 side broadcasts, and any other
length mismatch raises `ValueError` (modelled by `Except.error ()`). -/
def allclose (a b : List ℚ) : Except Unit Bool :=
  if a.length = b.length then
    .ok ((a.zip b).all fun p => closeQ p.1 p.2)
  else if a.length = 1 then
    .ok (b.all fun t => closeQ (a.headD 0) t)
  else if b.length = 1 then
    .ok (a.all fun s => closeQ s (b.headD 0))
  else .error ()

/-- One point of `np.interp(t, xp, fp)` on the zipped points `xp × fp`
(assumed sorted by x): clamp below the first and above the last point,
linear interpolation between neighbours. -/
def interp1 (pts : List (ℚ × ℚ)) (t : ℚ) : ℚ :=
  match pts with
  | [] => 0
  | [p] => p.2
  | p0 :: p1 :: rest =>
    if t ≤ p0.1 then p0.2
    else if t ≤ p1.1 then
      qAdd p0.2 (qDiv (qMul (qSub p1.2 p0.2) (qSub t p0.1)) (qSub p1.1 p0.1))
    else interp1 (p1 :: rest) t

/-- `np.interp(x, xp, fp)` for 1-D arrays. -/
def interpList (x xp fp : List ℚ) : List ℚ :=
  x.map (interp1 (xp.zip fp))

/-- An aligned pair of curves: common grid and the two y-series. -/
structure AlignedPair where
  x : List ℚ
  y1 : List ℚ
  y2 : List ℚ
deriving DecidableEq

/-- The inline alignment step shared by `plot_diff` and `plot_diff_matrix`
(`if not np.allclose(x1, x2): y2 = np.interp(x1, x2, y2)`); the grid is
always the first curve's.  An `error` is the `ValueError` `np.allclose`
raises on incompatible grid lengths. -/
def align (c1 c2 : Curve) : Except Unit AlignedPair :=
  match allclose c1.x c2.x with
  | .error e => .error e
  | .ok b => .ok ⟨c1.x, c1.y, if b then c2.y else interpList c1.x c2.x c2.y⟩

/-- Elementwise `y1 - y2` (numpy subtraction of equal-length arrays). -/
def zipSub (a b : List ℚ) : List ℚ :=
  (a.zip b).map fun p => qSub p.1 p.2

/-! Section: The plot modes as series producers -/

/-- One rendered line: the data handed to `plt.plot`, split into the base
series and the vertical offset the call applies, plus the legend label. -/
structure Series where
  x : List ℚ
  y : List ℚ
  label : String
  yOffset : ℚ
deriving DecidableEq

/-- `Plotter.plot_overlaid`: one series per file that loads, in input
order; failures are printed and skipped; no offsets. -/
def plotOverlaid (files : List File) : List Series :=
  files.filterMap fun f =>
    match loadCurve f with
    | .ok c => some ⟨c.x, c.y, f.name, 0⟩
    | .error _ => none

/-- The `for i, f in enumerate(files)` loop of `Plotter.plot_waterfall`:
`i` advances for every input file, loaded or not, and a loaded file is
plotted at `y + i * yspace`. -/
def wfGo (yspace : ℚ) (i : Nat) (fs : List File) : List Series :=
  match fs with
  | [] => []
  | f :: rest =>
    match loadCurve f with
    | .ok c => ⟨c.x, c.y, f.name, qMul (i : ℚ) yspace⟩ :: wfGo yspace (i + 1) rest
    | .error _ => wfGo yspace (i + 1) rest

/-- `Plotter.plot_waterfall`. -/
def plotWaterfall (files : List File) (yspace : ℚ) : List Series :=
  wfGo yspace 0 files

/-- The body of one `plot_diff_matrix` pair iteration up to the offset:
load both files, align (curve `i` is the reference grid), subtract.
`none` is the caught exception (either load fails, or `np.allclose`
raises on incompatible grid lengths); the offset field is filled in by the
caller. -/
def diffPairCore (fi fj : File) : Option Series :=
  match loadCurve fi, loadCurve fj with
  | .ok c1, .ok c2 =>
    match align c1 c2 with
    | .error _ => none
    | .ok ap => some ⟨ap.x, zipSub ap.y1 ap.y2, fi.name ++ " - " ++ fj.name, 0⟩
  | _, _ => none

/-- The nested pair loop of `plot_diff_matrix`: `off` starts at 0 and
advances by `yspace` only when a pair was successfully plotted. -/
def dmGo (files : List File) (yspace : ℚ) (ps : List (Nat × Nat)) (off : ℚ) :
    List Series :=
  match ps with
  | [] => []
  | p :: rest =>
    match diffPairCore (files.getD p.1 default) (files.getD p.2 default) with
    | some s => { s with yOffset := off } :: dmGo files yspace rest (qAdd off yspace)
    | none => dmGo files yspace rest off

/-- The index pairs `(i, j)`, `i < j`, in the iteration order of the nested
`for i in range(n): for j in range(i + 1, n)` loops. -/
def pairsList (n : Nat) : List (Nat × Nat) :=
  (List.range n).flatMap fun i => (List.range' (i + 1) (n - (i + 1))).map fun j => (i, j)

/-- `Plotter.plot_diff_matrix`. -/
def plotDiffMatrix (files : List File) (yspace : ℚ) : List Series :=
  dmGo files yspace (pairsList files.length) 0

/-- `Plotter.plot_diff`: exactly two files or nothing is plotted; one
series of the aligned difference with no offset; any exception inside the
`try` block (a failed load, or `np.allclose` raising on incompatible grid
lengths) is caught and nothing is plotted. -/
def plotDiff (files : List File) : List Series :=
  match files with
  | [f1, f2] =>
    match loadCurve f1, loadCurve f2 with
    | .ok c1, .ok c2 =>
      match align c1 c2 with
      | .error _ => []
      | .ok ap => [⟨ap.x, zipSub ap.y1 ap.y2, f1.name ++ " - " ++ f2.name, 0⟩]
    | _, _ => []
  | _ => []

example : pairsList 3 = [(0, 1), (0, 2), (1, 2)] := by decide
example : plotOverlaid [⟨"a", ["#L r G", "0 1", "1 2"]⟩, ⟨"b", ["junk"]⟩] =
    [⟨[0, 1], [1, 2], "a", 0⟩] := by decide
example : plotWaterfall [⟨"b", ["junk"]⟩, ⟨"a", ["#L r G", "0 1", "1 2"]⟩] 1 =
    [⟨[0, 1], [1, 2], "a", 1⟩] := by decide
example : plotDiff [⟨"a", ["#L r G", "0 1", "1 2", "2 3"]⟩, ⟨"b", ["#L r G", "0 2", "2 4"]⟩] =
    [] := by decide
example : plotDiff [⟨"a", ["#L r G", "0 1", "1 3"]⟩, ⟨"b", ["#L r G", "0 2", "1 4"]⟩] =
    [⟨[0, 1], [-1, -1], "a - b", 0⟩] := by decide
example : plotDiffMatrix [⟨"a", ["#L r G", "0 1", "1 3"]⟩, ⟨"b", ["#L r G", "0 2", "1 4"]⟩] 1 =
    [⟨[0, 1], [-1, -1], "a - b", 0⟩] := by decide

/-! Section: Concrete input files used by the claims -/

/-- A plain numeric file with no `#L` line (two rows, two columns). -/
def plainFile : File := ⟨"plain.txt", ["0 1", "1 2"]⟩

/-- A labeled file whose numeric block is a single two-column row. -/
def oneRowFile : File := ⟨"one.gr", ["#L r G", "0 1"]⟩

/-- File A of the spec's DirectDiff example: rows (0,1), (1,2), (2,3). -/
def fileA7 : File := ⟨"A.gr", ["#L r G", "0 1", "1 2", "2 3"]⟩

/-- File B of the spec's DirectDiff example: rows (0,2), (2,4). -/
def fileB7 : File := ⟨"B.gr", ["#L r G", "0 2", "2 4"]⟩

/-- A text-only file: no row ever parses as numeric. -/
def c8bad : File := ⟨"bad.txt", ["hello world", "more text"]⟩

/-- A well-formed labeled file. -/
def c8good : File := ⟨"good.gr", ["#L A B", "0 1", "1 2"]⟩

/-- A file that fails to load (used as the first waterfall input). -/
def c2bad : File := ⟨"bad.txt", ["no data here"]⟩

/-- A well-formed labeled file (the only success in the waterfall input). -/
def c2good : File := ⟨"good.gr", ["#L q I", "0 1", "1 2"]⟩

/-- Valid curve on the grid x = 0, 1. -/
def c5fA : File := ⟨"a.gr", ["#L r G", "0 1", "1 3"]⟩

/-- Valid curve on the grid x = 0, 1. -/
def c5fB : File := ⟨"b.gr", ["#L r G", "0 2", "1 4"]⟩

/-- Valid curve on the three-point grid x = 0, 1, 2. -/
def c5fC : File := ⟨"c.gr", ["#L r G", "0 1", "1 2", "2 3"]⟩

/-! Section: C1 -/

/-- C1 (code bug): `_load_data` has no plain-numeric fallback.  A file that
exists, has no `#L` line and parses as whitespace-delimited numeric rows
with two columns is rejected with the "could not find #L labels or numeric
data" error (`unparsableFormat`) instead of loading with default labels
`("X", "Y")` as the spec promises.  (The repository's own CLI validates
exactly such files as plottable input via a plain `np.loadtxt` probe.) -/
theorem c1_plain_numeric_no_fallback :
    loadCurve plainFile = .error .unparsableFormat := by decide

/-! Section: C3 -/

/-- C3 counterexample: the label parser does not produce
`("r (Å)", "G (Å⁻²)")` for the header `"r ($\AA$) G ($\AA^{-2}$)"`, because
the split on whitespace separates the name tokens from the unit tokens. -/
theorem c3_counterexample :
    ¬ parseLabels "r ($\\AA$) G ($\\AA^{-2}$)".toList = ("r (Å)", "G (Å⁻²)") := by decide

/-- C3 (amended): for the header `"r ($\AA$) G ($\AA^{-2}$)"` the parser
takes the first two whitespace/comma tokens, `"r"` and `"($\AA$)"`, and the
substitution table turns the second into `"(Å)"`; the result is
`xlabel = "r"`, `ylabel = "(Å)"`. -/
theorem c3_angstrom_header_tokens :
    parseLabels "r ($\\AA$) G ($\\AA^{-2}$)".toList = ("r", "(Å)") := by decide

/-! Section: C4 -/

/-- The run splitter never returns an empty list of fields. -/
theorem splitRunsGo_ne_nil (p : Char → Bool) (cs : List Char) :
    ∀ (acc : List Char) (skipping : Bool), splitRunsGo p cs acc skipping ≠ [] := by
  induction cs with
  | nil => intro acc skipping; simp [splitRunsGo]
  | cons c rest ih =>
    intro acc skipping
    by_cases h1 : p c
    · by_cases h2 : skipping
      · simpa [splitRunsGo, h1, h2] using ih [] true
      · simp [splitRunsGo, h1, h2]
    · simpa [splitRunsGo, h1] using ih (c :: acc) false

/-- C4 counterexample: a one-token header yields fewer than two tokens, yet
the parser returns that token as xlabel, not the default `"X"`. -/
theorem c4_counterexample :
    (pySplit "Energy".toList).length < 2 ∧ parseLabels "Energy".toList ≠ ("X", "Y") := by
  decide

/-- C4 (amended): when the header yields fewer than two whitespace/comma
tokens, only the ylabel falls back to `"Y"`; the xlabel is the (cleaned)
single token of the split, which is never absent because `re.split` always
returns at least one field. -/
theorem c4_short_header_ylabel_default (l : List Char)
    (h : (pySplit l).length < 2) :
    parseLabels l = (⟨cleanLabel ((pySplit l).headD [])⟩, "Y") := by
  have hne : pySplit l ≠ [] := splitRunsGo_ne_nil _ _ _ _
  have h1 : (pySplit l).length = 1 := by
    have hpos := List.length_pos.mpr hne
    omega
  obtain ⟨t, ht⟩ := List.length_eq_one.mp h1
  unfold parseLabels
  rw [ht]
  have hY : cleanLabel "Y".toList = "Y".toList := by decide
  simp [List.getD, hY]
  decide

/-- C4 witness: the amended statement at the one-token header `"Energy"`. -/
theorem c4_short_header_ylabel_default_witness :
    parseLabels "Energy".toList =
      (⟨cleanLabel ((pySplit "Energy".toList).headD [])⟩, "Y") :=
  c4_short_header_ylabel_default "Energy".toList (by decide)

/-! Section: C9 -/

/-- C9 (code bug): a labeled file whose numeric block is a single
two-column row is rejected.  `np.loadtxt` returns a 1-D array for one row,
so `_load_data`'s `data.ndim == 1` test raises "expected at least two
numeric columns" even though the row has two columns; the spec's invariant
`len(x) == len(y) >= 1` says the load should succeed. -/
theorem c9_single_row_rejected :
    loadCurve oneRowFile = .error .insufficientColumns := by decide

/-! Section: C7 -/

/-- C7 (code bug): both example files load, but `plot_diff` aligns them
with `np.allclose(x1, x2)` first, and for grids of lengths 3 and 2 that
call raises a broadcast `ValueError`; the exception is caught and no
series is produced, so the interpolated difference of the spec (diff at
x=1 equal to -1) is never computed. -/
theorem c7_direct_diff_grid_mismatch :
    loadsOk fileA7 = true ∧ loadsOk fileB7 = true ∧
      plotDiff [fileA7, fileB7] = [] := by decide

/-! Section: C6 -/

/-- C6: when the two grids have equal length and every pair of grid points
is within the `np.isclose` tolerance, alignment performs no resampling:
the aligned pair is exactly (c1.x, c1.y, c2.y). -/
theorem c6_align_identity (c1 c2 : Curve) (hlen : c1.x.length = c2.x.length)
    (hcl : ∀ p ∈ c1.x.zip c2.x, closeQ p.1 p.2 = true) :
    align c1 c2 = .ok ⟨c1.x, c1.y, c2.y⟩ := by
  have hall : (c1.x.zip c2.x).all (fun p => closeQ p.1 p.2) = true :=
    List.all_eq_true.mpr hcl
  simp [align, allclose, hlen, hall]

/-- C6 witness: two-point grids differing by 1e-9 at the second point are
within tolerance, and alignment returns the two y-series unchanged. -/
theorem c6_align_identity_witness :
    align ⟨[0, 1], [5, 6], "X", "Y"⟩
        ⟨[0, mkRat 1000000001 1000000000], [7, 8], "X", "Y"⟩ =
      .ok ⟨[0, 1], [5, 6], [7, 8]⟩ :=
  c6_align_identity _ _ (by decide) (by decide)

/-! Section: C8 -/

/-- If no line of the remainder is fully numeric, the scan never sets a
data-start index. -/
theorem scanGo_snd_none (ls : List String) :
    ∀ (i : Nat) (lab : Option (List Char)),
      (∀ l ∈ ls, isNumericRow (pyStrip l.toList) = false) →
      (scanGo ls i lab).2 = none := by
  induction ls with
  | nil => intro i lab _; simp [scanGo]
  | cons l rest ih =>
    intro i lab h
    have hl := h l (by simp)
    have hrest : ∀ x ∈ rest, isNumericRow (pyStrip x.toList) = false :=
      fun x hx => h x (by simp [hx])
    simp only [scanGo]
    split
    · exact ih _ _ hrest
    · cases lab with
      | none => exact ih _ _ hrest
      | some lb =>
        simp only [hl, Bool.false_eq_true, if_false]
        exact ih _ _ hrest

/-- C8: over `[goodFile, badFile]` where the good file loads and the bad
file contains no fully-numeric row, the overlay mode reports the bad file
as `unparsableFormat` (the "could not find #L labels or numeric data"
error, caught and logged, never a process fault since `plotOverlaid` is a
total function) and produces exactly the good file's series. -/
theorem c8_overlay_skips_unparsable (g b : File) (c : Curve)
    (hg : loadCurve g = .ok c)
    (hb : ∀ l ∈ b.lines, isNumericRow (pyStrip l.toList) = false) :
    loadCurve b = .error .unparsableFormat ∧
      plotOverlaid [g, b] = [⟨c.x, c.y, g.name, 0⟩] := by
  have hload : loadCurve b = .error .unparsableFormat := by
    have hsnd := scanGo_snd_none b.lines 0 none hb
    unfold loadCurve scan
    cases hE : scanGo b.lines 0 none with
    | mk fst snd =>
      rw [hE] at hsnd
      simp only at hsnd
      subst hsnd
      cases fst <;> rfl
  refine ⟨hload, ?_⟩
  simp [plotOverlaid, List.filterMap_cons, hg, hload]

/-- C8 witness: the statement at a concrete good file and a concrete
text-only file. -/
theorem c8_overlay_skips_unparsable_witness :
    loadCurve c8bad = .error .unparsableFormat ∧
      plotOverlaid [c8good, c8bad] = [⟨[0, 1], [1, 2], "good.gr", 0⟩] :=
  c8_overlay_skips_unparsable c8good c8bad ⟨[0, 1], [1, 2], "A", "B"⟩
    (by decide) (by decide)

/-! Section: C10 -/

/-- Lines that do not start with `#L` are skipped while no label has been
seen yet. -/
theorem scanGo_skip_nonlabel (ls : List String) (more : List String) :
    ∀ i : Nat, (∀ l ∈ ls, startsHashL (pyStrip l.toList) = false) →
      scanGo (ls ++ more) i none = scanGo more (i + ls.length) none := by
  induction ls with
  | nil => intro i _; simp
  | cons l rest ih =>
    intro i h
    have hl := h l (by simp)
    have hrest : ∀ x ∈ rest, startsHashL (pyStrip x.toList) = false :=
      fun x hx => h x (by simp [hx])
    rw [List.cons_append]
    simp only [scanGo, hl, Bool.false_eq_true, if_false]
    rw [ih (i + 1) hrest]
    congr 1
    simp [List.length_cons]
    omega

/-- Blank lines after the label are skipped: a blank line neither starts
with `#L` nor parses as a numeric row, so the scan walks past it keeping
the label and never selects it as the data start. -/
theorem scanGo_skip_blanks (bls : List String) (more : List String) (L : List Char) :
    ∀ i : Nat, (∀ l ∈ bls, pyStrip l.toList = []) →
      scanGo (bls ++ more) i (some L) = scanGo more (i + bls.length) (some L) := by
  induction bls with
  | nil => intro i _; simp
  | cons l rest ih =>
    intro i h
    have hl : pyStrip l.toList = [] := h l (by simp)
    have hrest : ∀ x ∈ rest, pyStrip x.toList = [] := fun x hx => h x (by simp [hx])
    have hsh : startsHashL ([] : List Char) = false := by decide
    have hnr : isNumericRow ([] : List Char) = false := by decide
    rw [List.cons_append]
    simp only [scanGo, hl, hsh, hnr, Bool.false_eq_true, if_false]
    rw [ih (i + 1) hrest]
    congr 1
    simp [List.length_cons]
    omega

/-- C10: in a file consisting of any non-label prefix, a `#L` header line,
blank lines, then the first fully-numeric line and a remainder, the scan
returns the header's label remainder and the data-start index of the
numeric line: the blank lines are walked over (never taken as the data
start, never an error) and the boundary is exactly the first fully-numeric
line after the header. -/
theorem c10_blank_lines_skipped (pre : List String) (header : String)
    (blanks : List String) (numRow : String) (rest : List String)
    (hpre : ∀ l ∈ pre, startsHashL (pyStrip l.toList) = false)
    (hh : startsHashL (pyStrip header.toList) = true)
    (hb : ∀ l ∈ blanks, pyStrip l.toList = [])
    (hn : isNumericRow (pyStrip numRow.toList) = true)
    (hnh : startsHashL (pyStrip numRow.toList) = false) :
    scan (pre ++ header :: (blanks ++ numRow :: rest)) =
      (some (pyStrip ((pyStrip header.toList).drop 2)),
        some (pre.length + 1 + blanks.length)) := by
  unfold scan
  rw [scanGo_skip_nonlabel pre _ 0 hpre]
  simp only [scanGo, hh, if_true]
  rw [scanGo_skip_blanks blanks _ _ _ hb]
  simp only [scanGo, hnh, hn, Bool.false_eq_true, if_false, if_true]
  congr 2
  omega

/-- C10 witness: a junk first line, the header, two blank lines, then the
first numeric row at absolute index 4. -/
theorem c10_blank_lines_skipped_witness :
    scan (["junk"] ++ "#L x y" :: (["", "   "] ++ "0 1" :: ["1 2"])) =
      (some (pyStrip ((pyStrip "#L x y".toList).drop 2)),
        some (["junk"].length + 1 + ["", "   "].length)) :=
  c10_blank_lines_skipped ["junk"] "#L x y" ["", "   "] "0 1" ["1 2"]
    (by decide) (by decide) (by decide) (by decide) (by decide)

/-! Section: C2 -/

/-- The waterfall loop plots the file at position `i` of the remaining list
(enumerated from `i0`) with offset `(i0 + i) * yspace` whenever it loads,
regardless of how many earlier files failed. -/
theorem wfGo_mem (y : ℚ) (fs : List File) :
    ∀ (i0 i : Nat) (f : File) (c : Curve), fs[i]? = some f → loadCurve f = .ok c →
      Series.mk c.x c.y f.name (qMul ((i0 + i : Nat) : ℚ) y) ∈ wfGo y i0 fs := by
  induction fs with
  | nil => intro i0 i f c hget _; simp at hget
  | cons f1 rest ih =>
    intro i0 i f c hget hok
    cases i with
    | zero =>
      have hf : f1 = f := by simpa using hget
      subst hf
      simp only [wfGo, hok, Nat.add_zero]
      exact List.mem_cons_self _ _
    | succ j =>
      have hget' : rest[j]? = some f := by simpa using hget
      have hmem := ih (i0 + 1) j f c hget' hok
      have harith : i0 + 1 + j = i0 + (j + 1) := by omega
      rw [harith] at hmem
      cases hE : loadCurve f1 with
      | ok c1 =>
        simp only [wfGo, hE]
        exact List.mem_cons_of_mem _ hmem
      | error e =>
        simp only [wfGo, hE]
        exact hmem

/-- C2 (amended): in waterfall mode the offset of a plotted curve is its
input position times `yspace` — the enumeration index advances over every
input file, so files that fail to load still consume an offset slot. -/
theorem c2_offset_by_input_index (files : List File) (yspace : ℚ) (i : Nat)
    (f : File) (c : Curve) (hget : files[i]? = some f)
    (hok : loadCurve f = .ok c) :
    Series.mk c.x c.y f.name ((i : ℚ) * yspace) ∈ plotWaterfall files yspace := by
  have h := wfGo_mem yspace files 0 i f c hget hok
  rw [qMul_eq] at h
  simpa using h

/-- C2 counterexample: over `[c2bad, c2good]` the only successfully-loaded
curve is the 0-th success, yet it is plotted at offset `1 * yspace`, not
`0 * yspace`: the failed first file consumed an offset slot. -/
theorem c2_counterexample :
    loadsOk c2bad = false ∧ loadsOk c2good = true ∧
      (plotWaterfall [c2bad, c2good] 1).map Series.yOffset = [1] ∧ (1 : ℚ) ≠ 0 := by
  decide

/-- C2 witness: the amended statement at input index 1 of `[c2bad, c2good]`. -/
theorem c2_offset_by_input_index_witness :
    Series.mk [0, 1] [1, 2] "good.gr" (((1 : Nat) : ℚ) * 1) ∈
      plotWaterfall [c2bad, c2good] 1 :=
  c2_offset_by_input_index [c2bad, c2good] 1 1 c2good ⟨[0, 1], [1, 2], "q", "I"⟩
    (by decide) (by decide)

/-! Section: C5 -/

/-- Summing a pointwise successor adds the list length. -/
theorem sum_map_succ_shift (l : List Nat) (f g : Nat → Nat)
    (h : ∀ a ∈ l, f a = g a + 1) :
    (l.map f).sum = (l.map g).sum + l.length := by
  induction l with
  | nil => simp
  | cons a rest ih =>
    have ha := h a (by simp)
    have hrest : ∀ x ∈ rest, f x = g x + 1 := fun x hx => h x (by simp [hx])
    simp only [List.map_cons, List.sum_cons, List.length_cons, ha, ih hrest]
    omega

/-- Twice the Gauss sum of the pair counts: the iteration
`i = 0..n-1, j = i+1..n-1` visits `n*(n-1)/2` pairs. -/
theorem sum_pair_counts (n : Nat) :
    2 * ((List.range n).map (fun i => n - (i + 1))).sum = n * (n - 1) := by
  induction n with
  | zero => simp
  | succ m ih =>
    rw [List.range_succ, List.map_append, List.sum_append]
    have hshift : ((List.range m).map (fun i => m + 1 - (i + 1))).sum =
        ((List.range m).map (fun i => m - (i + 1))).sum + m := by
      have := sum_map_succ_shift (List.range m)
        (fun i => m + 1 - (i + 1)) (fun i => m - (i + 1))
        (fun a ha => by
          have haa : a < m := List.mem_range.mp ha
          show m + 1 - (a + 1) = m - (a + 1) + 1
          omega)
      simpa [List.length_range] using this
    simp only [List.map_cons, List.map_nil, List.sum_cons, List.sum_nil, Nat.sub_self,
      Nat.add_zero]
    rw [hshift]
    have hm : (m + 1) * (m + 1 - 1) = m * (m - 1) + 2 * m := by
      rcases m with _ | k
      · simp
      · simp only [Nat.add_sub_cancel]
        ring
    omega

/-- The pair list has exactly `n*(n-1)/2` elements (stated doubled to stay
in `Nat`). -/
theorem pairsList_length (n : Nat) : 2 * (pairsList n).length = n * (n - 1) := by
  rw [pairsList, List.length_flatMap]
  have hmap : (List.map (List.length ∘ fun i =>
      (List.range' (i + 1) (n - (i + 1))).map fun j => (i, j)) (List.range n)) =
      (List.range n).map (fun i => n - (i + 1)) := by
    apply List.map_congr_left
    intro a _
    simp [List.length_range']
  rw [hmap, sum_pair_counts]

/-- Every pair produced by the nested loops has both indices in range. -/
theorem mem_pairsList {n : Nat} {p : Nat × Nat} (hp : p ∈ pairsList n) :
    p.1 < n ∧ p.2 < n := by
  rw [pairsList, List.mem_flatMap] at hp
  obtain ⟨i, hi, hmem⟩ := hp
  rw [List.mem_map] at hmem
  obtain ⟨j, hj, rfl⟩ := hmem
  rw [List.mem_range] at hi
  rw [List.mem_range'_1] at hj
  exact ⟨hi, by omega⟩

/-- A pair of files that both load, with equal grid lengths, always yields
a matrix-difference series: the loads succeed and `np.allclose` takes its
equal-length branch, so no exception is caught. -/
theorem diffPairCore_isSome (f g : File) (hf : loadsOk f = true)
    (hg : loadsOk g = true) (hl : gridLen f = gridLen g) :
    (diffPairCore f g).isSome = true := by
  unfold loadsOk at hf hg
  cases hcf : loadCurve f with
  | error e => rw [hcf] at hf; simp at hf
  | ok c1 =>
    cases hcg : loadCurve g with
    | error e => rw [hcg] at hg; simp at hg
    | ok c2 =>
      have hxy : c1.x.length = c2.x.length := by
        unfold gridLen at hl
        rw [hcf, hcg] at hl
        exact hl
      simp [diffPairCore, align, allclose, hcf, hcg, hxy]

/-- When every pair in `ps` yields a series, the matrix loop emits one
series per pair and the k-th series (0-indexed) carries offset
`off + k * yspace`. -/
theorem dmGo_all_some (files : List File) (y : ℚ) (ps : List (Nat × Nat)) :
    (∀ p ∈ ps, (diffPairCore (files.getD p.1 default) (files.getD p.2 default)).isSome
        = true) →
      ∀ off : ℚ, (dmGo files y ps off).length = ps.length ∧
        (dmGo files y ps off).map Series.yOffset =
          (List.range ps.length).map (fun k : Nat => off + (k : ℚ) * y) := by
  induction ps with
  | nil => intro _ off; simp [dmGo]
  | cons p rest ih =>
    intro h off
    obtain ⟨s, hs⟩ := Option.isSome_iff_exists.mp (h p (by simp))
    have hrest : ∀ q ∈ rest,
        (diffPairCore (files.getD q.1 default) (files.getD q.2 default)).isSome = true :=
      fun q hq => h q (List.mem_cons_of_mem _ hq)
    obtain ⟨ihlen, ihmap⟩ := ih hrest (qAdd off y)
    constructor
    · simp only [dmGo, hs, List.length_cons, ihlen]
    · simp only [dmGo, hs, List.map_cons, List.length_cons]
      rw [ihmap, qAdd_eq, List.range_succ_eq_map]
      simp only [List.map_cons, List.map_map, Nat.cast_zero, zero_mul, add_zero]
      congr 1
      apply List.map_congr_left
      intro k _
      simp only [Function.comp]
      push_cast
      ring

/-- C5 (amended): over files that all load and whose loaded x-grids all
have the same length, the difference matrix emits exactly `N*(N-1)/2`
series (stated doubled to stay in `Nat`), and the k-th series (0-indexed,
in the pair iteration order `i=0,j=1; i=0,j=2; ...`) carries offset
`k * yspace` — the offsets start at `0`, not at `yspace`. -/
theorem c5_diff_matrix_shape (files : List File) (yspace : ℚ)
    (hok : ∀ f ∈ files, loadsOk f = true)
    (hlen : ∀ f ∈ files, ∀ g ∈ files, gridLen f = gridLen g) :
    2 * (plotDiffMatrix files yspace).length = files.length * (files.length - 1) ∧
      (plotDiffMatrix files yspace).map Series.yOffset =
        (List.range (plotDiffMatrix files yspace).length).map
          (fun k : Nat => (k : ℚ) * yspace) := by
  have hall : ∀ p ∈ pairsList files.length,
      (diffPairCore (files.getD p.1 default) (files.getD p.2 default)).isSome = true := by
    intro p hp
    obtain ⟨h1, h2⟩ := mem_pairsList hp
    have m1 : files.getD p.1 default ∈ files := by
      rw [List.getD_eq_getElem?_getD, List.getElem?_eq_getElem h1, Option.getD_some]
      exact List.getElem_mem h1
    have m2 : files.getD p.2 default ∈ files := by
      rw [List.getD_eq_getElem?_getD, List.getElem?_eq_getElem h2, Option.getD_some]
      exact List.getElem_mem h2
    exact diffPairCore_isSome _ _ (hok _ m1) (hok _ m2) (hlen _ m1 _ m2)
  obtain ⟨hLen, hMap⟩ := dmGo_all_some files yspace (pairsList files.length) hall 0
  constructor
  · unfold plotDiffMatrix
    rw [hLen]
    exact pairsList_length files.length
  · unfold plotDiffMatrix
    rw [hMap, hLen]
    apply List.map_congr_left
    intro k _
    exact zero_add _

/-- C5 counterexample: three files that all load, but the DiffMatrix over
them with `yspace = 1` emits a single series at offset 0 — not the three
series at offsets `1, 2, 3` the claim demands.  The pairs involving the
three-point grid are skipped (their `np.allclose` call raises), and the
one surviving pair starts at offset 0, not `yspace`. -/
theorem c5_counterexample :
    loadsOk c5fA = true ∧ loadsOk c5fB = true ∧ loadsOk c5fC = true ∧
      (plotDiffMatrix [c5fA, c5fB, c5fC] 1).map Series.yOffset = [0] ∧
      (plotDiffMatrix [c5fA, c5fB, c5fC] 1).map Series.yOffset ≠ [1, 2, 3] := by
  decide

/-- C5 witness: the amended statement over the two equal-grid files. -/
theorem c5_diff_matrix_shape_witness :
    2 * (plotDiffMatrix [c5fA, c5fB] 1).length =
        [c5fA, c5fB].length * ([c5fA, c5fB].length - 1) ∧
      (plotDiffMatrix [c5fA, c5fB] 1).map Series.yOffset =
        (List.range (plotDiffMatrix [c5fA, c5fB] 1).length).map
          (fun k : Nat => (k : ℚ) * 1) :=
  c5_diff_matrix_shape [c5fA, c5fB] 1 (by decide) (by decide)
